import Mathlib

/-!
Shallow embedding of the Docx-generation-with-database repository.

Source files embedded:
* `src/main.py` — FastAPI demand-letter generator: the rich-text styling
  pipeline (`create_rich_text_field`, `prepare_context_with_styling`) and the
  error classification of the `/generate-letter` endpoint.
* `src/Flask_App/app.py` — Flask intake application: upload validation,
  sqlite-backed file/chat-history store, the synchronous webhook call with its
  simulated-response fallback, and the download endpoint.

Byte payloads (file contents, webhook bodies) are modelled as opaque `String`s;
the code never inspects them beyond storing and forwarding.
-/

/-! ## Embedding of docxtpl's RichText (the fragment the source uses)

`docxtpl.RichText(text)` with a plain text argument creates one run holding
`text` with all formatting defaulted (`bold=False`, `underline=False`,
`italic=False`, `size=None`, `font=None`); `rt.add(text, bold=…, underline=…,
italic=…, size=…, font=…)` appends one run with exactly the given properties. -/

structure RTRun where
  text : String
  bold : Bool
  underline : Bool
  italic : Bool
  size : Option Nat
  font : Option String
deriving DecidableEq

structure RichText where
  runs : List RTRun
deriving DecidableEq

/-- `RichText(t)`: a single run with default (absent) formatting. -/
def RichText.ofText (t : String) : RichText :=
  ⟨[⟨t, false, false, false, none, none⟩]⟩

/-- `rt.add(t, bold=b, underline=u, italic=i, size=s, font=f)`. -/
def RichText.add (rt : RichText) (t : String) (bold underline italic : Bool)
    (size : Option Nat) (font : Option String) : RichText :=
  ⟨rt.runs ++ [⟨t, bold, underline, italic, size, font⟩]⟩

/-! ## src/main.py: input schema and styling pipeline -/

/-- The pydantic model `DemandLetterData` (src/main.py lines 19–38): nineteen
string fields, each defaulting to `""`.  pydantic `str` fields are never
`None`, so raw values are plain strings here. -/
structure DemandLetterData where
  date : String := ""
  defendant : String := ""
  street_address : String := ""
  state_address : String := ""
  plaintiff_full_name : String := ""
  pronoun : String := ""
  clauses : String := ""
  mr_ms_last_name : String := ""
  start_date : String := ""
  job_title : String := ""
  hourly_wage_annual_salary : String := ""
  end_date : String := ""
  paragraphs_concerning_wrongful_termination : String := ""
  paragraphs_concerning_labor_code_violations : String := ""
  delete_a_or_b : String := ""
  damages_formatted : String := ""
  conclusion : String := ""
  company_name : String := ""
  client_name : String := ""
deriving DecidableEq

/-- `data.model_dump()`: field-name → value pairs in declaration order
(pydantic preserves declaration order; python dicts preserve insertion
order). -/
def model_dump (d : DemandLetterData) : List (String × String) :=
  [("date", d.date),
   ("defendant", d.defendant),
   ("street_address", d.street_address),
   ("state_address", d.state_address),
   ("plaintiff_full_name", d.plaintiff_full_name),
   ("pronoun", d.pronoun),
   ("clauses", d.clauses),
   ("mr_ms_last_name", d.mr_ms_last_name),
   ("start_date", d.start_date),
   ("job_title", d.job_title),
   ("hourly_wage_annual_salary", d.hourly_wage_annual_salary),
   ("end_date", d.end_date),
   ("paragraphs_concerning_wrongful_termination",
     d.paragraphs_concerning_wrongful_termination),
   ("paragraphs_concerning_labor_code_violations",
     d.paragraphs_concerning_labor_code_violations),
   ("delete_a_or_b", d.delete_a_or_b),
   ("damages_formatted", d.damages_formatted),
   ("conclusion", d.conclusion),
   ("company_name", d.company_name),
   ("client_name", d.client_name)]

/-- Python `str.isspace` characters in the ASCII range (str.strip's default
strip set; unicode space code points do not occur in this pipeline). -/
def isPySpace (c : Char) : Bool :=
  c = ' ' || c = '\t' || c = '\n' || c = '\r' || c = '\x0b' || c = '\x0c'

/-- Python `text.strip()`: drop leading and trailing whitespace. -/
def pyStrip (s : String) : String :=
  String.mk (((s.toList.dropWhile isPySpace).reverse.dropWhile isPySpace).reverse)

/-- `create_rich_text_field` (src/main.py lines 55–73).  Python's
`if not text or text.strip() == "":` for a `str` argument is
`text == "" or text.strip() == ""`; in that case the function returns
`RichText("")` — note: with NO formatting arguments.  Otherwise it builds an
empty `RichText()` and adds one run with the given formatting. -/
def create_rich_text_field (text : String) (bold : Bool := false)
    (underline : Bool := false) (italic : Bool := false)
    (size : Nat := 24) (font : String := "Times New Roman") : RichText :=
  if text = "" ∨ pyStrip text = "" then
    RichText.ofText ""
  else
    (RichText.mk []).add text bold underline italic (some size) (some font)

/-- A context value: either a plain string or a styled rich-text value
(src/main.py stores either `str` or `RichText` in the context dict). -/
inductive StyledValue where
  | plain (s : String)
  | rich (rt : RichText)
deriving DecidableEq

/-- `bold_fields` (src/main.py lines 89–94). -/
def bold_fields : List String :=
  ["defendant", "street_address", "state_address", "plaintiff_full_name",
   "pronoun", "mr_ms_last_name", "start_date", "job_title",
   "hourly_wage_annual_salary", "end_date", "company_name",
   "client_name", "damages_formatted"]

/-- `bold_underlined_fields` (src/main.py line 97). -/
def bold_underlined_fields : List String := ["date"]

/-- `no_style_fields` (src/main.py lines 100–103). -/
def no_style_fields : List String :=
  ["conclusion", "paragraphs_concerning_labor_code_violations",
   "paragraphs_concerning_wrongful_termination", "clauses"]

/-- The body of the styling loop (src/main.py lines 106–120): the `value is
None` guard is vacuous for this schema (pydantic `str` fields), and
`str(value)` is the identity on strings. -/
def styleField (field value : String) : StyledValue :=
  if bold_fields.contains field then
    StyledValue.rich (create_rich_text_field value true)
  else if bold_underlined_fields.contains field then
    StyledValue.rich (create_rich_text_field value true true)
  else if no_style_fields.contains field then
    StyledValue.plain value
  else
    StyledValue.plain value

/-- `prepare_context_with_styling` (src/main.py lines 75–126): style every
dumped field, then overwrite `delete_a_or_b` in place with
`str(data_dict.get('delete_a_or_b', ''))` (dict assignment to an existing key
keeps its position). -/
def prepare_context_with_styling (d : DemandLetterData) :
    List (String × StyledValue) :=
  let context := (model_dump d).map (fun p => (p.1, styleField p.1 p.2))
  context.map (fun p =>
    if p.1 = "delete_a_or_b" then (p.1, StyledValue.plain d.delete_a_or_b)
    else p)

/-! ## src/main.py: generate-letter error classification -/

/-- Containment of `needle` at the head of `hay` (character lists). -/
def matchHere (needle hay : List Char) : Bool :=
  match needle, hay with
  | [], _ => true
  | _, [] => false
  | x :: xs, y :: ys => x == y && matchHere xs ys

/-- Containment of `needle` anywhere in `hay` (character lists). -/
def containsSub (needle : List Char) : List Char → Bool
  | [] => matchHere needle []
  | b :: bs => matchHere needle (b :: bs) || containsSub needle bs

/-- Python's `needle in hay` substring test. -/
def strContains (hay needle : String) : Bool :=
  containsSub needle.toList hay.toList

/-- Python `s.lower()` (ASCII case mapping; the strings compared here are
ASCII). -/
def strLower (s : String) : String :=
  String.mk (s.toList.map Char.toLower)

/-- The `except`-handler of `generate_letter` (src/main.py lines 220–231):
given the stringified exception `e`, return the HTTP status and detail.
`"template.docx" in str(e).lower()` → 500 template error;
`"render" in str(e).lower()` → 400 rendering error; otherwise 500 generic. -/
def generate_letter_error_response (e : String) : Nat × String :=
  if strContains (strLower e) "template.docx" then
    (500, "Template file error: " ++ e)
  else if strContains (strLower e) "render" then
    (400, "Template rendering error: " ++ e)
  else
    (500, "Failed to generate letter: " ++ e)

/-! ## src/main.py: the generate-letter endpoint's render step

The assignment `doc.env = Environment(undefined=StrictUndefined)` at
main.py line 192 is a silent no-op: docxtpl's `DocxTemplate.render(context,
jinja_env=None, …)` consults only its `jinja_env` parameter (building a plain
`Template(src_xml)` under jinja2's default environment when none is passed),
and `generate_letter` never passes one.  Substitution therefore runs under
jinja2's default `Undefined`: a placeholder with no context key renders as
the empty string and raises nothing.  Rendering is total, so the `except`
handler (`generate_letter_error_response`) is unreachable from a missing
placeholder; it fires for the template-missing `HTTPException` raised inside
`try` (whose stringification contains `template.docx`). -/

/-- One fragment of the document template: literal text, or a placeholder
`\x7b\x7b name \x7d\x7d` to be substituted from the context. -/
inductive TemplatePart where
  | lit (s : String)
  | hole (name : String)
deriving DecidableEq

/-- The text a context value contributes when substituted into the
template (a `RichText` contributes its runs' text content). -/
def StyledValue.renderText : StyledValue → String
  | StyledValue.plain s => s
  | StyledValue.rich rt => String.join (rt.runs.map RTRun.text)

/-- Substitution under jinja2's default `Undefined` (the behaviour of the
templating collaborator as `generate_letter` actually invokes it): a
placeholder whose name has no context entry renders as the empty string; no
exception is raised. -/
def render_default (ctx : List (String × StyledValue)) :
    List TemplatePart → String
  | [] => ""
  | TemplatePart.lit s :: rest => s ++ render_default ctx rest
  | TemplatePart.hole n :: rest =>
      (match ctx.lookup n with
       | none => ""
       | some v => v.renderText) ++ render_default ctx rest

/-- The detail of the `HTTPException` raised when `template.docx` is absent
(src/main.py lines 178–181). -/
def template_missing_message : String :=
  "Template file 'template.docx' not found. Please ensure it exists in the project root."

/-- The two response shapes of `/generate-letter`: a 200 document
attachment, or an `HTTPException` with status and detail. -/
inductive LetterResponse where
  | document (status : Nat) (content : String)
  | error (status : Nat) (detail : String)
deriving DecidableEq

/-- `generate_letter` (src/main.py lines 165–231): if the template file is
absent, the raised template-missing `HTTPException` is caught by the
`except` block and classified by `generate_letter_error_response` (its
message contains `template.docx`, so a 500); otherwise the context is styled
and the template rendered under default-`Undefined` substitution (see above),
and the buffer is returned as a 200 attachment. -/
def generate_letter (template_exists : Bool) (tmpl : List TemplatePart)
    (data : DemandLetterData) : LetterResponse :=
  if template_exists then
    LetterResponse.document 200
      (render_default (prepare_context_with_styling data) tmpl)
  else
    LetterResponse.error
      (generate_letter_error_response template_missing_message).1
      (generate_letter_error_response template_missing_message).2

/-! ## src/Flask_App/app.py: database model

`chat_processor.db` has two tables (`init_db`, lines 19–52).  The
`chat_history` table's `status` column is declared `TEXT DEFAULT 'completed'`,
and `store_chat_history`'s INSERT omits the column, so every inserted row gets
the default.  AUTOINCREMENT ids start at 1. -/

structure FileRow where
  id : Nat
  filename : String
  file_type : String
  content : String
  associated_message : String
  chat_session_id : String
deriving DecidableEq

structure ChatRow where
  session_id : String
  user_message : String
  csv_file_info : String
  txt_file_info : String
  response_file_info : String
  chat_messages : String
  status : String
deriving DecidableEq

structure DB where
  files : List FileRow
  chats : List ChatRow
  next_file_id : Nat
deriving DecidableEq

/-- `store_file_in_db` (lines 60–74): INSERT into `files`, returning
`cursor.lastrowid` (the fresh AUTOINCREMENT id). -/
def store_file_in_db (db : DB) (filename content file_type message
    session_id : String) : Nat × DB :=
  (db.next_file_id,
   { db with
       files := db.files ++
         [⟨db.next_file_id, filename, file_type, content, message, session_id⟩],
       next_file_id := db.next_file_id + 1 })

/-- `store_chat_history` (lines 87–98): INSERT into `chat_history`; the
`status` column is omitted, so the row takes the schema default
`'completed'`. -/
def store_chat_history (db : DB) (session_id user_message csv_info txt_info
    response_info chat_messages : String) : DB :=
  { db with
      chats := db.chats ++
        [⟨session_id, user_message, csv_info, txt_info, response_info,
          chat_messages, "completed"⟩] }

/-- `get_file_from_db` (lines 76–85): SELECT by primary-key id. -/
def get_file_from_db (db : DB) (file_id : Nat) :
    Option (String × String × String) :=
  (db.files.find? (fun r => r.id == file_id)).map
    (fun r => (r.filename, r.content, r.file_type))

/-- The characters after the last `'.'`, or `none` when there is no dot:
`filename.rsplit('.', 1)[1]` guarded by `'.' in filename`. -/
def afterLastDot : List Char → Option (List Char)
  | [] => none
  | c :: cs =>
    match afterLastDot cs with
    | some r => some r
    | none => if c = '.' then some cs else none

/-- `allowed_file` (lines 57–58): `'.' in filename and
filename.rsplit('.', 1)[1].lower() in allowed_extensions`. -/
def allowed_file (filename : String) (allowed_extensions : List String) : Bool :=
  match afterLastDot filename.toList with
  | none => false
  | some ext => allowed_extensions.contains (strLower (String.mk ext))

/-! ## src/Flask_App/app.py: upload endpoint -/

/-- One multipart request to `/upload`: each file part (when present in
`request.files`) carries its client filename and raw content; `message` is the
optional form field (default `''`). -/
structure UploadRequest where
  csv_file : Option (String × String)
  txt_file : Option (String × String)
  message : String

/-- Outcome of `requests.post(webhook_url, …, timeout=30)`: either an HTTP
response (status code, content-type header, binary body, decoded text body)
or a raised transport error / timeout. -/
inductive WebhookOutcome where
  | response (status_code : Nat) (content_type : String)
      (body : String) (body_text : String)
  | transport_error (msg : String)

/-- The JSON/HTTP responses `upload_files` can produce. -/
inductive UploadResponse where
  | client_error (status : Nat) (msg : String)
  | success_download (message : String) (download_file_id : Nat)
      (download_filename : String) (demo_mode : Bool)
  | success_text (message : String)
  | server_error (status : Nat) (msg : String)
deriving DecidableEq

/-- Observable steps of one `/upload` request, in execution order. -/
inductive UploadEvent where
  | store_file
  | webhook_call
  | store_chat
  | respond
deriving DecidableEq

structure UploadResult where
  db : DB
  resp : UploadResponse
  events : List UploadEvent
deriving DecidableEq

/-- The Word-document MIME type tested against the webhook response's
content-type header (line 197). -/
def docx_mime : String :=
  "application/vnd.openxmlformats-officedocument.wordprocessingml.document"

/-- The simulated response document built in the `except` fallback
(lines 250–258). -/
def simulated_content (message csv_name txt_name now : String) : String :=
  "Processed Response Document\n\nOriginal Message: " ++ message ++
  "\nCSV File: " ++ csv_name ++ "\nTXT File: " ++ txt_name ++
  "\nProcessing Time: " ++ now ++
  "\n\nThis is a simulated response document for demonstration purposes.\nIn a real implementation, this would be the processed result from your webhook."

/-- The inner `except webhook_error:` block (lines 245–287): any exception
from the webhook call — non-200 status (re-raised at line 243), transport
error, or timeout — falls through to this simulated-response fallback, which
stores a fabricated document, records the chat session, and returns success
with `demo_mode: True`. -/
def demo_fallback (db2 : DB) (message csv_name txt_name csv_info txt_info
    session_id now : String) : UploadResult :=
  let response_filename := "processed_response_" ++ now ++ ".docx"
  let r3 := store_file_in_db db2 response_filename
              (simulated_content message csv_name txt_name now) "docx"
              ("Simulated response for: " ++ message) session_id
  let db4 := store_chat_history r3.2 session_id message csv_info txt_info
               (response_filename ++ " (ID: " ++ toString r3.1 ++ ")")
               "Files processed successfully (simulated)"
  ⟨db4,
   UploadResponse.success_download "Files processed successfully (Demo Mode)"
     r3.1 response_filename true,
   [UploadEvent.store_file, UploadEvent.store_file, UploadEvent.webhook_call,
    UploadEvent.store_file, UploadEvent.store_chat, UploadEvent.respond]⟩

/-- `upload_files` (lines 136–290).  Parameters abstracting the ambient
effects: `sf` is werkzeug's `secure_filename` (an uninterpreted sanitizer),
`session_id` the generated `uuid4`, `now` the `datetime.now().strftime(…)`
stamp used in generated filenames, and `outcome` what the single
`requests.post` call to the webhook produced.  The returned `events` list the
externally observable steps in the order the code performs them. -/
def upload_files (db : DB) (req : UploadRequest) (sf : String → String)
    (session_id now : String) (outcome : WebhookOutcome) : UploadResult :=
  match req.csv_file, req.txt_file with
  | none, _ =>
      ⟨db, UploadResponse.client_error 400 "Both CSV and TXT files are required",
       [UploadEvent.respond]⟩
  | some _, none =>
      ⟨db, UploadResponse.client_error 400 "Both CSV and TXT files are required",
       [UploadEvent.respond]⟩
  | some (csv_name, csv_content), some (txt_name, txt_content) =>
    if csv_name = "" ∨ txt_name = "" then
      ⟨db, UploadResponse.client_error 400 "Both files must be selected",
       [UploadEvent.respond]⟩
    else if allowed_file csv_name ["csv"] = false then
      ⟨db, UploadResponse.client_error 400 "CSV file must have .csv extension",
       [UploadEvent.respond]⟩
    else if allowed_file txt_name ["txt"] = false then
      ⟨db, UploadResponse.client_error 400 "Text file must have .txt extension",
       [UploadEvent.respond]⟩
    else
      let r1 := store_file_in_db db (sf csv_name) csv_content "csv"
                  req.message session_id
      let r2 := store_file_in_db r1.2 (sf txt_name) txt_content "txt"
                  req.message session_id
      let csv_info := csv_name ++ " (ID: " ++ toString r1.1 ++ ")"
      let txt_info := txt_name ++ " (ID: " ++ toString r2.1 ++ ")"
      match outcome with
      | WebhookOutcome.response code content_type body body_text =>
        if code = 200 then
          if strContains content_type docx_mime then
            let response_filename := "response_" ++ now ++ ".docx"
            let r3 := store_file_in_db r2.2 response_filename body "docx"
                        ("Response for: " ++ req.message) session_id
            let db4 := store_chat_history r3.2 session_id req.message csv_info
                         txt_info
                         (response_filename ++ " (ID: " ++ toString r3.1 ++ ")")
                         "Files processed successfully"
            ⟨db4,
             UploadResponse.success_download "Files processed successfully"
               r3.1 response_filename false,
             [UploadEvent.store_file, UploadEvent.store_file,
              UploadEvent.webhook_call, UploadEvent.store_file,
              UploadEvent.store_chat, UploadEvent.respond]⟩
          else
            let db3 := store_chat_history r2.2 session_id req.message csv_info
                         txt_info "Text response" body_text
            ⟨db3, UploadResponse.success_text body_text,
             [UploadEvent.store_file, UploadEvent.store_file,
              UploadEvent.webhook_call, UploadEvent.store_chat,
              UploadEvent.respond]⟩
        else
          demo_fallback r2.2 req.message csv_name txt_name csv_info txt_info
            session_id now
      | WebhookOutcome.transport_error _ =>
          demo_fallback r2.2 req.message csv_name txt_name csv_info txt_info
            session_id now

/-! ## src/Flask_App/app.py: download endpoint -/

inductive DownloadResponse where
  | not_found (msg : String) (status : Nat)
  | file_response (filename : String) (content : String) (mimetype : String)
deriving DecidableEq

/-- MIME selection in `download_file` (lines 301–309). -/
def mime_for (file_type : String) : String :=
  if file_type = "docx" then docx_mime
  else if file_type = "csv" then "text/csv"
  else if file_type = "txt" then "text/plain"
  else "application/octet-stream"

/-- `download_file` (lines 292–319): look the id up in `files`; a missing row
returns `("File not found", 404)`, otherwise the stored bytes are streamed
with the stored filename and selected MIME type. -/
def download_file (db : DB) (file_id : Nat) : DownloadResponse :=
  match get_file_from_db db file_id with
  | none => DownloadResponse.not_found "File not found" 404
  | some (filename, content, file_type) =>
      DownloadResponse.file_response filename content (mime_for file_type)

/-! ## Concrete fixtures used by witnesses and counterexamples -/

/-- An empty store with AUTOINCREMENT at its initial value. -/
def db0 : DB := ⟨[], [], 1⟩

/-- A well-formed upload request. -/
def req0 : UploadRequest :=
  ⟨some ("data.csv", "a,b\n1,2"), some ("doc.txt", "Hello"), "please process"⟩

/-- A request whose two files are well-named but have empty content. -/
def empty_content_req : UploadRequest :=
  ⟨some ("data.csv", ""), some ("doc.txt", ""), "m"⟩

/-- A request whose tabular file has the wrong extension. -/
def bad_ext_req : UploadRequest :=
  ⟨some ("data.txt", "a,b"), some ("doc.txt", "Hello"), "m"⟩

/-- The store mid-request: both input files persisted, webhook not yet
resolved, no chat-history row and no response artifact stored. -/
def pending_db : DB :=
  ⟨[⟨1, "data.csv", "csv", "a,b\n1,2", "please process", "S"⟩,
    ⟨2, "doc.txt", "txt", "Hello", "please process", "S"⟩], [], 3⟩

/-! # Theorems -/

/-- Normal form of the Styling Resolver: applied to any input record, the
context is this explicit key/value list (in dump order). -/
theorem prepare_context_eq (d : DemandLetterData) :
    prepare_context_with_styling d =
      [("date", StyledValue.rich (create_rich_text_field d.date true true)),
       ("defendant", StyledValue.rich (create_rich_text_field d.defendant true)),
       ("street_address", StyledValue.rich (create_rich_text_field d.street_address true)),
       ("state_address", StyledValue.rich (create_rich_text_field d.state_address true)),
       ("plaintiff_full_name", StyledValue.rich (create_rich_text_field d.plaintiff_full_name true)),
       ("pronoun", StyledValue.rich (create_rich_text_field d.pronoun true)),
       ("clauses", StyledValue.plain d.clauses),
       ("mr_ms_last_name", StyledValue.rich (create_rich_text_field d.mr_ms_last_name true)),
       ("start_date", StyledValue.rich (create_rich_text_field d.start_date true)),
       ("job_title", StyledValue.rich (create_rich_text_field d.job_title true)),
       ("hourly_wage_annual_salary", StyledValue.rich (create_rich_text_field d.hourly_wage_annual_salary true)),
       ("end_date", StyledValue.rich (create_rich_text_field d.end_date true)),
       ("paragraphs_concerning_wrongful_termination", StyledValue.plain d.paragraphs_concerning_wrongful_termination),
       ("paragraphs_concerning_labor_code_violations", StyledValue.plain d.paragraphs_concerning_labor_code_violations),
       ("delete_a_or_b", StyledValue.plain d.delete_a_or_b),
       ("damages_formatted", StyledValue.rich (create_rich_text_field d.damages_formatted true)),
       ("conclusion", StyledValue.plain d.conclusion),
       ("company_name", StyledValue.rich (create_rich_text_field d.company_name true)),
       ("client_name", StyledValue.rich (create_rich_text_field d.client_name true))] := rfl

/-- Claim C3: for every input field record, the Styling Resolver returns a
record whose key list equals the input's key list exactly — one output entry
per input entry, in order; hence no keys added and none dropped. -/
theorem C3_key_set_preserved (d : DemandLetterData) :
    (prepare_context_with_styling d).map Prod.fst
      = (model_dump d).map Prod.fst := rfl

/-- Claim C7: for every input field record, every field not listed in the
bold or bold+underline tables is passed through as its plain input string,
unchanged — not a rich-text run. -/
theorem C7_plain_fields_unchanged (d : DemandLetterData) (f v : String)
    (hmem : (f, v) ∈ model_dump d)
    (hb : bold_fields.contains f = false)
    (hbu : bold_underlined_fields.contains f = false) :
    (f, StyledValue.plain v) ∈ prepare_context_with_styling d := by
  rw [prepare_context_eq]
  simp only [model_dump, List.mem_cons, List.not_mem_nil, or_false,
    Prod.mk.injEq] at hmem
  repeat' rcases hmem with ⟨rfl, rfl⟩ | hmem
  all_goals subst_vars
  all_goals first
    | exact absurd hb (by decide)
    | exact absurd hbu (by decide)
    | simp

/-- Witness for C7: the plain field `clauses` with value `"xyz"` appears
unchanged in the output. -/
theorem C7_witness :
    ("clauses", StyledValue.plain "xyz")
      ∈ prepare_context_with_styling { clauses := "xyz" } :=
  C7_plain_fields_unchanged { clauses := "xyz" } "clauses" "xyz"
    (by decide) (by decide) (by decide)

/-- Counterexample to claim C1 as stated: styling the empty raw value of the
bold field `defendant` (and of the bold+underline field `date`) produces a run
whose `bold` and `underline` flags are `false` — the declared flags are NOT
set on the empty run (`create_rich_text_field` returns `RichText("")` with no
formatting before ever looking at its flag arguments). -/
theorem C1_counterexample :
    (prepare_context_with_styling {}).lookup "defendant"
        = some (StyledValue.rich ⟨[⟨"", false, false, false, none, none⟩]⟩) ∧
    (prepare_context_with_styling {}).lookup "date"
        = some (StyledValue.rich ⟨[⟨"", false, false, false, none, none⟩]⟩) :=
  ⟨rfl, rfl⟩

/-- Claim C1 (amended): for every field declared in the bold or
bold+underline tables, styling an empty or whitespace-only raw value produces
a valid rich-text run with zero-length text content and NO formatting flags
set (bold, underline and italic all absent) — the key is not omitted and no
error is raised. -/
theorem C1_empty_value_styles_to_empty_run (d : DemandLetterData) (f v : String)
    (hmem : (f, v) ∈ model_dump d)
    (hstyled : bold_fields.contains f = true ∨
      bold_underlined_fields.contains f = true)
    (hempty : pyStrip v = "") :
    (f, StyledValue.rich ⟨[⟨"", false, false, false, none, none⟩]⟩)
      ∈ prepare_context_with_styling d := by
  rw [prepare_context_eq]
  simp only [model_dump, List.mem_cons, List.not_mem_nil, or_false,
    Prod.mk.injEq] at hmem
  repeat' rcases hmem with ⟨rfl, rfl⟩ | hmem
  all_goals subst_vars
  all_goals rcases hstyled with h | h <;>
    first
      | exact absurd h (by decide)
      | simp [create_rich_text_field, hempty, RichText.ofText]

/-- Witness for C1 (amended): the bold field `defendant` with empty raw value
appears in the output as an empty unformatted run. -/
theorem C1_witness :
    ("defendant", StyledValue.rich ⟨[⟨"", false, false, false, none, none⟩]⟩)
      ∈ prepare_context_with_styling {} :=
  C1_empty_value_styles_to_empty_run {} "defendant" ""
    (by decide) (Or.inl (by decide)) rfl

/-- Claim C10: for every input record, every bold or bold+underline field
whose value is non-empty and not whitespace-only is styled as a single
rich-text run carrying the value with `bold` set, `italic` false, font size
24 (half-points, 12pt) and font family `'Times New Roman'` — constants baked
into the styling loop, not configurable per request. -/
theorem C10_nonempty_styled_run_constants (d : DemandLetterData) (f v : String)
    (hmem : (f, v) ∈ model_dump d)
    (hstyled : bold_fields.contains f = true ∨
      bold_underlined_fields.contains f = true)
    (hne : pyStrip v ≠ "") :
    ∃ u : Bool,
      (f, StyledValue.rich
          ⟨[⟨v, true, u, false, some 24, some "Times New Roman"⟩]⟩)
        ∈ prepare_context_with_styling d := by
  have hv : ¬(v = "" ∨ pyStrip v = "") := by
    rintro (rfl | h)
    · exact hne rfl
    · exact hne h
  rw [prepare_context_eq]
  simp only [model_dump, List.mem_cons, List.not_mem_nil, or_false,
    Prod.mk.injEq] at hmem
  repeat' rcases hmem with ⟨rfl, rfl⟩ | hmem
  all_goals subst_vars
  all_goals rcases hstyled with h | h <;>
    first
      | exact absurd h (by decide)
      | (refine ⟨false, ?_⟩
         simp [create_rich_text_field, hv, RichText.add]
         done)
      | (refine ⟨true, ?_⟩
         simp [create_rich_text_field, hv, RichText.add]
         done)

/-- Witness for C10: the bold field `defendant` with value `"Acme Corp"` is
styled as a bold, non-italic, size-24, Times New Roman run. -/
theorem C10_witness :
    ∃ u : Bool,
      ("defendant", StyledValue.rich
          ⟨[⟨"Acme Corp", true, u, false, some 24, some "Times New Roman"⟩]⟩)
        ∈ prepare_context_with_styling { defendant := "Acme Corp" } :=
  C10_nonempty_styled_run_constants { defendant := "Acme Corp" }
    "defendant" "Acme Corp" (by decide) (Or.inl (by decide)) (by decide)

/-- Claim C4 (code bug): a template placeholder with no corresponding
context field does not produce a 400-class substitution error at all — the
`doc.env = StrictUndefined` assignment is a no-op, so the placeholder is
silently rendered as the empty string and the endpoint returns HTTP 200 with
the partial (blanked) document; only the template-missing path yields an
error, the 500-class one.  Evaluated at the failing input: a template
containing the unresolvable placeholder `signature` and a request with every
schema field defaulted. -/
theorem C4_missing_placeholder_renders_blank_200 :
    generate_letter true
        [TemplatePart.lit "Dear ", TemplatePart.hole "signature",
         TemplatePart.lit "."] {}
      = LetterResponse.document 200 "Dear ." ∧
    generate_letter false
        [TemplatePart.lit "Dear ", TemplatePart.hole "signature",
         TemplatePart.lit "."] {}
      = LetterResponse.error 500
          ("Template file error: " ++ template_missing_message) :=
  ⟨rfl, rfl⟩

/-- Helper: whatever branch `/upload` takes, the rows it appends to
`chat_history` all carry the schema-default status `'completed'` —
`store_chat_history`'s INSERT never names the status column and nothing ever
updates it. -/
theorem upload_files_chats_spec (db : DB) (req : UploadRequest)
    (sf : String → String) (session_id now : String)
    (outcome : WebhookOutcome) :
    ∃ new : List ChatRow,
      (upload_files db req sf session_id now outcome).db.chats
        = db.chats ++ new ∧
      ∀ c ∈ new, c.status = "completed" := by
  obtain ⟨cf, tf, msg⟩ := req
  rcases cf with _ | ⟨cn, cc⟩
  · exact ⟨[], by simp [upload_files], by simp⟩
  · rcases tf with _ | ⟨tn, tc⟩
    · exact ⟨[], by simp [upload_files], by simp⟩
    · simp only [upload_files]
      split_ifs with h1 h2 h3
      · exact ⟨[], by simp, by simp⟩
      · exact ⟨[], by simp, by simp⟩
      · exact ⟨[], by simp, by simp⟩
      · cases outcome with
        | transport_error m =>
            refine ⟨_, rfl, ?_⟩
            intro c hc
            simp [demo_fallback, store_file_in_db, store_chat_history] at hc
            simp [hc]
        | response code ct b bt =>
            dsimp only
            by_cases hcode : code = 200
            · rw [if_pos hcode]
              by_cases hct : strContains ct docx_mime = true
              · rw [if_pos hct]
                refine ⟨_, rfl, ?_⟩
                intro c hc
                simp [store_file_in_db, store_chat_history] at hc
                simp [hc]
              · rw [if_neg hct]
                refine ⟨_, rfl, ?_⟩
                intro c hc
                simp [store_file_in_db, store_chat_history] at hc
                simp [hc]
            · rw [if_neg hcode]
              refine ⟨_, rfl, ?_⟩
              intro c hc
              simp [demo_fallback, store_file_in_db, store_chat_history] at hc
              simp [hc]

/-- Counterexample to claim C2 as stated: a valid submission whose webhook
call returns HTTP 503 gets a fabricated success — the intake responds with a
success payload carrying a download id for a simulated document, and the
stored submission row has status `'completed'`, not `'failed'`. -/
theorem C2_counterexample :
    (upload_files db0 req0 (fun s => s) "S" "T"
        (WebhookOutcome.response 503 "" "" "")).resp
      = UploadResponse.success_download
          "Files processed successfully (Demo Mode)" 3
          "processed_response_T.docx" true ∧
    ((upload_files db0 req0 (fun s => s) "S" "T"
        (WebhookOutcome.response 503 "" "" "")).db.chats.map ChatRow.status)
      = ["completed"] :=
  ⟨rfl, rfl⟩

/-- Claim C2 (amended): for every validated submission whose external
generator call returns a non-200 status, raises a transport error, or times
out, the intake path stores a simulated response document, records the
session with message `'Files processed successfully (simulated)'` and status
`'completed'`, and returns a success response flagged `demo_mode` — it never
records a `'failed'` state. -/
theorem C2_upstream_failure_fabricates_demo_success
    (db : DB) (req : UploadRequest) (sf : String → String)
    (session_id now : String) (outcome : WebhookOutcome)
    (cn cc tn tc : String)
    (hcsv : req.csv_file = some (cn, cc))
    (htxt : req.txt_file = some (tn, tc))
    (hnames : ¬(cn = "" ∨ tn = ""))
    (hac : allowed_file cn ["csv"] = true)
    (hat : allowed_file tn ["txt"] = true)
    (hfail : (∃ m, outcome = WebhookOutcome.transport_error m) ∨
      (∃ code ct b bt, outcome = WebhookOutcome.response code ct b bt ∧
        code ≠ 200)) :
    ∃ rid : Nat,
      (upload_files db req sf session_id now outcome).resp
        = UploadResponse.success_download
            "Files processed successfully (Demo Mode)" rid
            ("processed_response_" ++ now ++ ".docx") true ∧
      ∃ row : ChatRow,
        (upload_files db req sf session_id now outcome).db.chats
          = db.chats ++ [row] ∧
        row.status = "completed" ∧
        row.chat_messages = "Files processed successfully (simulated)" := by
  obtain ⟨cf, tf, msg⟩ := req
  dsimp only at hcsv htxt
  subst hcsv htxt
  simp only [upload_files]
  rw [if_neg hnames, if_neg (by simp [hac]), if_neg (by simp [hat])]
  rcases hfail with ⟨m, rfl⟩ | ⟨code, ct, b, bt, rfl, hcode⟩
  · exact ⟨_, rfl, _, rfl, rfl, rfl⟩
  · dsimp only
    rw [if_neg hcode]
    exact ⟨_, rfl, _, rfl, rfl, rfl⟩

/-- Witness for C2 (amended): a concrete valid upload whose webhook call
times out gets the simulated-success treatment. -/
theorem C2_witness :
    ∃ rid : Nat,
      (upload_files db0 req0 (fun s => s) "S" "T"
          (WebhookOutcome.transport_error "connection timed out")).resp
        = UploadResponse.success_download
            "Files processed successfully (Demo Mode)" rid
            ("processed_response_" ++ "T" ++ ".docx") true ∧
      ∃ row : ChatRow,
        (upload_files db0 req0 (fun s => s) "S" "T"
            (WebhookOutcome.transport_error "connection timed out")).db.chats
          = db0.chats ++ [row] ∧
        row.status = "completed" ∧
        row.chat_messages = "Files processed successfully (simulated)" :=
  C2_upstream_failure_fabricates_demo_success db0 req0 (fun s => s) "S" "T"
    (WebhookOutcome.transport_error "connection timed out")
    "data.csv" "a,b\n1,2" "doc.txt" "Hello" rfl rfl (by decide) (by decide)
    (by decide) (Or.inl ⟨"connection timed out", rfl⟩)

/-- Counterexample to claim C5 as stated: in a concrete validated upload the
external call strictly precedes the response (the event trace lists
`webhook_call` before `respond`), and the response value itself differs
between webhook outcomes — so the intake cannot have answered before the
external call was attempted, and it blocks on the background work. -/
theorem C5_counterexample :
    (upload_files db0 req0 (fun s => s) "S" "T"
        (WebhookOutcome.response 200 docx_mime "B" "")).events
      = [UploadEvent.store_file, UploadEvent.store_file,
         UploadEvent.webhook_call, UploadEvent.store_file,
         UploadEvent.store_chat, UploadEvent.respond] ∧
    (upload_files db0 req0 (fun s => s) "S" "T"
        (WebhookOutcome.response 200 docx_mime "B" "")).resp
      ≠ (upload_files db0 req0 (fun s => s) "S" "T"
          (WebhookOutcome.transport_error "down")).resp :=
  ⟨rfl, by decide⟩

/-- Claim C5 (amended): for every validated upload, intake stores the two
input files, then performs the external generator call synchronously, then
writes the chat-history row, and responds only after the call has resolved —
the response is never produced before the webhook call. -/
theorem C5_webhook_resolves_before_response
    (db : DB) (req : UploadRequest) (sf : String → String)
    (session_id now : String) (outcome : WebhookOutcome)
    (cn cc tn tc : String)
    (hcsv : req.csv_file = some (cn, cc))
    (htxt : req.txt_file = some (tn, tc))
    (hnames : ¬(cn = "" ∨ tn = ""))
    (hac : allowed_file cn ["csv"] = true)
    (hat : allowed_file tn ["txt"] = true) :
    ∃ mid : List UploadEvent,
      (upload_files db req sf session_id now outcome).events
        = [UploadEvent.store_file, UploadEvent.store_file,
           UploadEvent.webhook_call]
            ++ mid ++ [UploadEvent.store_chat, UploadEvent.respond] := by
  obtain ⟨cf, tf, msg⟩ := req
  dsimp only at hcsv htxt
  subst hcsv htxt
  simp only [upload_files]
  rw [if_neg hnames, if_neg (by simp [hac]), if_neg (by simp [hat])]
  cases outcome with
  | transport_error m => exact ⟨[UploadEvent.store_file], rfl⟩
  | response code ct b bt =>
      dsimp only
      by_cases hcode : code = 200
      · rw [if_pos hcode]
        by_cases hct : strContains ct docx_mime = true
        · rw [if_pos hct]
          exact ⟨[UploadEvent.store_file], rfl⟩
        · rw [if_neg hct]
          exact ⟨[], rfl⟩
      · rw [if_neg hcode]
        exact ⟨[UploadEvent.store_file], rfl⟩

/-- Witness for C5 (amended): a concrete validated upload's event trace has
the webhook call before the chat write and the response. -/
theorem C5_witness :
    ∃ mid : List UploadEvent,
      (upload_files db0 req0 (fun s => s) "S" "T"
          (WebhookOutcome.response 200 "text/plain" "" "ok")).events
        = [UploadEvent.store_file, UploadEvent.store_file,
           UploadEvent.webhook_call]
            ++ mid ++ [UploadEvent.store_chat, UploadEvent.respond] :=
  C5_webhook_resolves_before_response db0 req0 (fun s => s) "S" "T"
    (WebhookOutcome.response 200 "text/plain" "" "ok")
    "data.csv" "a,b\n1,2" "doc.txt" "Hello" rfl rfl (by decide) (by decide)
    (by decide)

/-- Counterexample to claim C8 as stated: the very act that creates a
submission's `chat_history` row stores it with status `'completed'` — a
submission never starts at (and is never observable as) `'processing'`. -/
theorem C8_counterexample :
    ((upload_files db0 req0 (fun s => s) "S" "T"
        (WebhookOutcome.response 200 docx_mime "B" "")).db.chats.map
          ChatRow.status) = ["completed"] ∧
    ("completed" : String) ≠ "processing" :=
  ⟨rfl, by decide⟩

/-- Claim C8 (amended): every `chat_history` row is created directly in the
single status `'completed'` (the column default; `store_chat_history` omits
the column and nothing updates it), so a status query only ever observes that
one value — there is no `'processing'` or `'failed'` state and no
transition. -/
theorem C8_status_always_completed (db : DB) (req : UploadRequest)
    (sf : String → String) (session_id now : String)
    (outcome : WebhookOutcome)
    (hinv : ∀ c ∈ db.chats, c.status = "completed") :
    ∀ c ∈ (upload_files db req sf session_id now outcome).db.chats,
      c.status = "completed" := by
  obtain ⟨new, hnew, hall⟩ :=
    upload_files_chats_spec db req sf session_id now outcome
  intro c hc
  rw [hnew] at hc
  rcases List.mem_append.mp hc with h | h
  · exact hinv c h
  · exact hall c h

/-- Witness for C8 (amended): the row created by a concrete failed-webhook
upload on an empty store has status `'completed'`. -/
theorem C8_witness :
    ChatRow.status
      ⟨"S", "please process", "data.csv (ID: 1)", "doc.txt (ID: 2)",
       "processed_response_T.docx (ID: 3)",
       "Files processed successfully (simulated)", "completed"⟩
      = "completed" :=
  C8_status_always_completed db0 req0 (fun s => s) "S" "T"
    (WebhookOutcome.transport_error "down") (by simp [db0]) _ (by decide)

/-- Counterexample to claim C6 as stated: with both inputs persisted and the
artifact not yet stored (a submission mid-processing), requesting the
would-be artifact id and requesting a completely unknown id produce the SAME
`404 File not found` response — there is no distinct `not ready` error. -/
theorem C6_counterexample :
    download_file pending_db 3
        = DownloadResponse.not_found "File not found" 404 ∧
    download_file pending_db 99
        = DownloadResponse.not_found "File not found" 404 ∧
    download_file pending_db 3 = download_file pending_db 99 :=
  ⟨rfl, rfl, rfl⟩

/-- Claim C6 (amended): requesting any identifier with no stored file —
whether the submission's artifact has not been produced yet or the identifier
is unknown — returns the one and only error response, `404 File not found`;
the download operation defines no separate `not ready` response. -/
theorem C6_missing_artifact_is_not_found (db : DB) (file_id : Nat)
    (h : get_file_from_db db file_id = none) :
    download_file db file_id
      = DownloadResponse.not_found "File not found" 404 := by
  simp [download_file, h]

/-- Witness for C6 (amended): an unknown id on the mid-processing store. -/
theorem C6_witness :
    download_file pending_db 99
      = DownloadResponse.not_found "File not found" 404 :=
  C6_missing_artifact_is_not_found pending_db 99 rfl

/-- Counterexample to claim C9 as stated: an upload whose two files are
well-named but have empty content is NOT rejected — it sails through
validation, persists both empty files (plus the simulated response; three
rows total), and returns success. -/
theorem C9_counterexample :
    (upload_files db0 empty_content_req (fun s => s) "S" "T"
        (WebhookOutcome.transport_error "down")).resp
      = UploadResponse.success_download
          "Files processed successfully (Demo Mode)" 3
          "processed_response_T.docx" true ∧
    (upload_files db0 empty_content_req (fun s => s) "S" "T"
        (WebhookOutcome.transport_error "down")).db.files.length = 3 :=
  ⟨rfl, rfl⟩

/-- Claim C9 (amended): for every upload request in which either file part is
missing, a filename is empty (no file selected), or a filename lacks the
expected extension (`.csv` / `.txt`), intake rejects with a 400 client error
and the store is left exactly as it was — nothing persisted.  (File content
is never inspected, so emptiness of the file itself is not checked.) -/
theorem C9_validation_rejects_before_persisting
    (db : DB) (req : UploadRequest) (sf : String → String)
    (session_id now : String) (outcome : WebhookOutcome)
    (h : req.csv_file = none ∨ req.txt_file = none ∨
      ∃ cn cc tn tc, req.csv_file = some (cn, cc) ∧
        req.txt_file = some (tn, tc) ∧
        (cn = "" ∨ tn = "" ∨ allowed_file cn ["csv"] = false ∨
          allowed_file tn ["txt"] = false)) :
    (∃ m, (upload_files db req sf session_id now outcome).resp
        = UploadResponse.client_error 400 m) ∧
    (upload_files db req sf session_id now outcome).db = db := by
  obtain ⟨cf, tf, msg⟩ := req
  dsimp only at h
  rcases h with rfl | rfl | ⟨cn, cc, tn, tc, rfl, rfl, hbad⟩
  · exact ⟨⟨_, rfl⟩, rfl⟩
  · rcases cf with _ | ⟨cn, cc⟩
    · exact ⟨⟨_, rfl⟩, rfl⟩
    · exact ⟨⟨_, rfl⟩, rfl⟩
  · simp only [upload_files]
    by_cases h1 : cn = "" ∨ tn = ""
    · rw [if_pos h1]
      exact ⟨⟨_, rfl⟩, rfl⟩
    · rw [if_neg h1]
      rcases hbad with hbad | hbad | hbad | hbad
      · exact absurd (Or.inl hbad) h1
      · exact absurd (Or.inr hbad) h1
      · rw [if_pos hbad]
        exact ⟨⟨_, rfl⟩, rfl⟩
      · by_cases h2 : allowed_file cn ["csv"] = false
        · rw [if_pos h2]
          exact ⟨⟨_, rfl⟩, rfl⟩
        · rw [if_neg h2, if_pos hbad]
          exact ⟨⟨_, rfl⟩, rfl⟩

/-- Witness for C9 (amended): a `.txt`-named tabular file is rejected with a
400 and the store is untouched. -/
theorem C9_witness :
    (∃ m, (upload_files db0 bad_ext_req (fun s => s) "S" "T"
        (WebhookOutcome.transport_error "down")).resp
          = UploadResponse.client_error 400 m) ∧
    (upload_files db0 bad_ext_req (fun s => s) "S" "T"
        (WebhookOutcome.transport_error "down")).db = db0 :=
  C9_validation_rejects_before_persisting db0 bad_ext_req (fun s => s) "S" "T"
    (WebhookOutcome.transport_error "down")
    (Or.inr (Or.inr ⟨"data.txt", "a,b", "doc.txt", "Hello", rfl, rfl,
      Or.inr (Or.inr (Or.inl (by decide)))⟩))
